import Mathlib

/-!
Verification development for the VATSIM-FPN flight-lookup repository.

This file gives a shallow embedding of the repository's resolution-engine
core — the VATSpy reference-data parser and memoizing store
(`utils/vatspy-parser.ts`), the FIR point-in-polygon classification
(`detectCurrentFIR`, `isPointInPolygon`, `isPointInMultiPolygon`), the ETA
computation (`calculateETA`), and the METAR flight-category classifier
(`getFlightCategory`) — and proves or refutes the specification's claims
about it.

Modelling conventions:
* JS numbers are modelled as `ℚ`; `NaN` (as produced by a failed
  `parseFloat`) is modelled by `Option ℚ` with `none` standing for `NaN`.
* JS string builtins (`trim`, `split`, `startsWith`, `endsWith`,
  `parseFloat`) are modelled by the `js*` helpers below, operating on the
  character list underlying a Lean `String`.
* The JS `||` default idiom (`x || d`, which replaces *falsy* values —
  `undefined`, `NaN`, `0`, `""` — by the default) is modelled by `jsOrQ`
  (numbers) and `jsOrS` (strings).
* `async` functions are embedded as pure functions; effectful collaborators
  (the fetch of the dataset, the airport lookup, the haversine distance)
  enter as explicit arguments.
-/

namespace VatsimFPN

/-! ## Models of the JavaScript primitives used by the source -/

/-- Whitespace stripped by JS `String.prototype.trim` (the subset relevant
to the dataset: space, tab, CR, LF). -/
def isJsWhitespace (c : Char) : Bool :=
  c == ' ' || c == '\t' || c == '\n' || c == '\r'

/-- Model of JS `String.prototype.trim`. -/
def jsTrim (s : String) : String :=
  String.mk (((s.data.dropWhile isJsWhitespace).reverse.dropWhile isJsWhitespace).reverse)

/-- Model of JS `String.prototype.split` with a one-character separator. -/
def jsSplit (sep : Char) (s : String) : List String :=
  (s.data.splitOn sep).map String.mk

/-- Model of JS `String.prototype.startsWith` with a one-character prefix. -/
def jsStartsWithChar (s : String) (c : Char) : Bool :=
  match s.data with
  | [] => false
  | a :: _ => a == c

/-- Model of JS `String.prototype.endsWith` with a one-character suffix. -/
def jsEndsWithChar (s : String) (c : Char) : Bool :=
  match s.data.getLast? with
  | none => false
  | some a => a == c

/-- Value of a decimal digit string (most significant digit first). -/
def digitsToNat (ds : List Char) : ℕ :=
  ds.foldl (fun a c => 10 * a + (c.toNat - 48)) 0

/-- Model of the JS builtin `parseFloat`, restricted to plain decimal
literals `[sign]digits[.digits]` after leading whitespace (the only shapes
occurring in the VATSpy dataset's numeric fields). `none` models the JS
result `NaN`. Like `parseFloat`, it reads the longest numeric prefix and
ignores trailing garbage. -/
def jsParseFloat (s : String) : Option ℚ :=
  let cs := s.data.dropWhile isJsWhitespace
  let signAndRest : ℚ × List Char :=
    match cs with
    | '-' :: rest => (-1, rest)
    | '+' :: rest => (1, rest)
    | _ => (1, cs)
  let intDigits := signAndRest.2.takeWhile Char.isDigit
  let afterInt := signAndRest.2.dropWhile Char.isDigit
  let fracDigits : List Char :=
    match afterInt with
    | '.' :: rest => rest.takeWhile Char.isDigit
    | _ => []
  if intDigits.isEmpty && fracDigits.isEmpty then none
  else some (signAndRest.1 *
    ((digitsToNat intDigits : ℚ) + (digitsToNat fracDigits : ℚ) / (10 : ℚ) ^ fracDigits.length))

/-- Model of JS `Math.round` (round half toward positive infinity). -/
def jsRound (x : ℚ) : ℤ := ⌊x + 1 / 2⌋

/-- JS `v || dflt` on an optional number: `undefined`/`NaN` (here `none`)
and `0` are falsy and replaced by the default. -/
def jsOrQ (v : Option ℚ) (dflt : ℚ) : ℚ :=
  match v with
  | none => dflt
  | some x => if x = 0 then dflt else x

/-- JS `v || dflt` on an optional string: `undefined` and `""` are falsy
and replaced by the default. -/
def jsOrS (v : Option String) (dflt : String) : String :=
  match v with
  | none => dflt
  | some s => if s = "" then dflt else s

/-! ## Weather classifier

Embedding of `getFlightCategory` (`app/metar/page.tsx` and the flight page;
the two copies in the source are textually identical). The source returns a
record `{category, color, bg}`; only the category is behaviourally relevant,
so the embedding returns the category enumeration. -/

/-- A decoded cloud layer as produced by the METAR-decoding collaborator. -/
structure CloudLayer where
  quantity : String
  height : ℚ
deriving DecidableEq

/-- Aviation flight-category taxonomy. -/
inductive FlightCategory where
  | LIFR
  | IFR
  | MVFR
  | VFR
deriving DecidableEq

/-- The inline predicate `c.quantity === 'BKN' || c.quantity === 'OVC'`
from the source's ceiling computation. -/
def isCeilingLayer (c : CloudLayer) : Bool :=
  c.quantity == "BKN" || c.quantity == "OVC"

/-- Embedding of `getFlightCategory`:
`const visibility = decoded.visibility?.value || 10;`
`const ceiling = decoded.clouds?.find(c => c.quantity === 'BKN' || c.quantity === 'OVC')?.height || 10000;`
followed by the threshold cascade. `visibilityValue` is
`decoded.visibility?.value` (`none` when the field is absent), `clouds` is
the decoded layer list (`[]` when absent). -/
def getFlightCategory (visibilityValue : Option ℚ) (clouds : List CloudLayer) : FlightCategory :=
  let visibility := jsOrQ visibilityValue 10
  let ceiling := jsOrQ ((clouds.find? isCeilingLayer).map CloudLayer.height) 10000
  if visibility < 1 ∨ ceiling < 500 then FlightCategory.LIFR
  else if visibility < 3 ∨ ceiling < 1000 then FlightCategory.IFR
  else if visibility < 5 ∨ ceiling < 3000 then FlightCategory.MVFR
  else FlightCategory.VFR

/-- The threshold cascade of `getFlightCategory`, hoisted over the two
effective inputs (proof-side restatement of the same four-way `if`). -/
def categoryCascade (visibility ceiling : ℚ) : FlightCategory :=
  if visibility < 1 ∨ ceiling < 500 then FlightCategory.LIFR
  else if visibility < 3 ∨ ceiling < 1000 then FlightCategory.IFR
  else if visibility < 5 ∨ ceiling < 3000 then FlightCategory.MVFR
  else FlightCategory.VFR

/-- The effective visibility actually used by `getFlightCategory`. -/
def effectiveVisibility (v : Option ℚ) : ℚ := jsOrQ v 10

/-- The effective ceiling actually used by `getFlightCategory`: the height
of the first broken/overcast layer in list order, with the falsy default. -/
def effectiveCeiling (clouds : List CloudLayer) : ℚ :=
  jsOrQ ((clouds.find? isCeilingLayer).map CloudLayer.height) 10000

/-- Modelled from the spec's words for claim C5 (refinement reference, to
be compared with `getFlightCategory`): visibility defaults to 10 and
ceiling to 10000 exactly when the field is missing, then the first matching
threshold rule applies. -/
def claimFlightCategory (visibility ceiling : Option ℚ) : FlightCategory :=
  let v := visibility.getD 10
  let c := ceiling.getD 10000
  if v < 1 ∨ c < 500 then FlightCategory.LIFR
  else if v < 3 ∨ c < 1000 then FlightCategory.IFR
  else if v < 5 ∨ c < 3000 then FlightCategory.MVFR
  else FlightCategory.VFR

/-! ## ETA computation

Embedding of `calculateETA` (`app/page.tsx`). The haversine distance
(`calculateDistance`, transcendental) and the async airport lookup enter as
explicit function arguments; `nowMs` is `Date.now()` in milliseconds. The
source's locale-formatted timestamp strings are elided; the arrival instant
they render is kept as `arrivalTimeMs`. -/

/-- An admitted VATSpy airport record (`VatspyAirport` in the source).
`latitude`/`longitude` are `none` when `parseFloat` returned `NaN`. -/
structure VatspyAirport where
  icao : String
  name : String
  latitude : Option ℚ
  longitude : Option ℚ
  iata : Option String
  fir : String
  isPseudo : Bool
deriving DecidableEq

/-- The part of `pilot.flight_plan` used by `calculateETA`. -/
structure FlightPlan where
  arrival : String
deriving DecidableEq

/-- The part of a VATSIM pilot record used by `calculateETA`. -/
structure VatsimPilot where
  latitude : ℚ
  longitude : ℚ
  groundspeed : ℚ
  flight_plan : Option FlightPlan

/-- Result of `calculateETA` (timestamp strings elided, see above). -/
structure ETAResult where
  duration : String
  arrivalTimeMs : ℚ
  distance : ℤ
deriving DecidableEq

/-- The duration-formatting block of `calculateETA`:
`hours = Math.floor(timeHours); minutes = Math.round((timeHours - hours) * 60);`
then `"{hours}h {minutes}m"`, or `"{minutes}m"` when `hours` is zero. -/
def durationStringOf (timeHours : ℚ) : String :=
  let hours := ⌊timeHours⌋
  let minutes := jsRound ((timeHours - hours) * 60)
  if hours > 0 then s!"{hours}h {minutes}m" else s!"{minutes}m"

/-- Embedding of `calculateETA`. Guards in source order:
`if (!pilot.flight_plan?.arrival || pilot.groundspeed <= 0) return null;`
then `if (!arrivalAirport || !arrivalAirport.latitude || !arrivalAirport.longitude) return null;`
(`!x` is JS falsiness: absent, `NaN`, or `0`). -/
def calculateETA (dist : ℚ → ℚ → ℚ → ℚ → ℚ) (getAirport : String → Option VatspyAirport)
    (pilot : VatsimPilot) (nowMs : ℚ) : Option ETAResult :=
  match pilot.flight_plan with
  | none => none
  | some fp =>
    if fp.arrival = "" ∨ pilot.groundspeed ≤ 0 then none
    else
      match getAirport fp.arrival with
      | none => none
      | some arrivalAirport =>
        match arrivalAirport.latitude, arrivalAirport.longitude with
        | some alat, some alon =>
          if alat = 0 ∨ alon = 0 then none
          else
            let distance := dist pilot.latitude pilot.longitude alat alon
            let timeHours := distance / pilot.groundspeed
            some { duration := durationStringOf timeHours
                   arrivalTimeMs := nowMs + timeHours * 60 * 60 * 1000
                   distance := jsRound distance }
        | _, _ => none

/-! ## Point-in-polygon containment and FIR classification

Embedding of `isPointInPolygon`, `isPointInMultiPolygon` and
`detectCurrentFIR` (`app/page.tsx`). Coordinates are `(longitude,
latitude)` pairs, longitude first, exactly as in the GeoJSON boundary
data and in the source's `pilotPoint = [pilot.longitude, pilot.latitude]`. -/

/-- One iteration of the ray-casting edge test inside `isPointInPolygon`:
`((yi > lat) !== (yj > lat)) && (lng < (xj - xi) * (lat - yi) / (yj - yi) + xi)`
with `pi = ring[i] = (xi, yi)` and `pj = ring[j] = (xj, yj)`. The first
conjunct guarantees `yj ≠ yi`, so the division is never degenerate. -/
def rayHit (pt pi pj : ℚ × ℚ) : Bool :=
  (decide (pi.2 > pt.2) != decide (pj.2 > pt.2)) &&
    decide (pt.1 < (pj.1 - pi.1) * (pt.2 - pi.2) / (pj.2 - pi.2) + pi.1)

/-- The inner ring loop of `isPointInPolygon`:
`for (let i = 0, j = ring.length - 1; i < ring.length; j = i++)` visits the
edge pairs `(ring[0], ring[n-1]), (ring[1], ring[0]), …,
(ring[n-1], ring[n-2])` — here produced by zipping the ring with the
last-element-prepended ring — toggling `inside` on each crossing edge.
An empty ring leaves `inside` at `false`. -/
def isPointInRing (pt : ℚ × ℚ) (ring : List (ℚ × ℚ)) : Bool :=
  match ring with
  | [] => false
  | p :: ps =>
    ((p :: ps).zip ((p :: ps).getLast (List.cons_ne_nil p ps) :: p :: ps)).foldl
      (fun inside e => if rayHit pt e.1 e.2 then !inside else inside) false

/-- The ring-index loop of `isPointInPolygon` with its two early returns:
`if (ringIndex === 0 && !inside) return false;`
`if (ringIndex > 0 && inside) return false;`
and `return true` once all rings are checked. -/
def ringsLoop (pt : ℚ × ℚ) : ℕ → List (List (ℚ × ℚ)) → Bool
  | _, [] => true
  | ringIndex, ring :: rest =>
    let inside := isPointInRing pt ring
    if decide (ringIndex = 0) && !inside then false
    else if decide (ringIndex > 0) && inside then false
    else ringsLoop pt (ringIndex + 1) rest

/-- Embedding of `isPointInPolygon`: ring 0 is the exterior, later rings
are holes. -/
def isPointInPolygon (pt : ℚ × ℚ) (polygon : List (List (ℚ × ℚ))) : Bool :=
  ringsLoop pt 0 polygon

/-- Embedding of `isPointInMultiPolygon`:
`multiPolygon.some(polygon => isPointInPolygon(point, polygon))`. -/
def isPointInMultiPolygon (pt : ℚ × ℚ) (multiPolygon : List (List (List (ℚ × ℚ)))) : Bool :=
  multiPolygon.any fun polygon => isPointInPolygon pt polygon

/-- GeoJSON geometry of a boundary feature: the two kinds consumed by
`detectCurrentFIR` (any other geometry kind never matches and does not
occur in the boundary data). -/
inductive Geometry where
  | polygon (coordinates : List (List (ℚ × ℚ)))
  | multiPolygon (coordinates : List (List (List (ℚ × ℚ))))
deriving DecidableEq

/-- A boundary feature: `properties.id` (the empty string models a
missing/falsy id), `properties.oceanic` (string `"1"` marks oceanic), and
the geometry. -/
structure BoundaryFeature where
  id : String
  oceanic : String
  geometry : Geometry
deriving DecidableEq

/-- The record `detectCurrentFIR` pushes onto `matchingFIRs`. -/
structure FIRMatch where
  id : String
  name : String
  isOceanic : Bool
deriving DecidableEq

/-- The per-feature containment dispatch inside `detectCurrentFIR`'s loop
(`if (feature.geometry.type === 'MultiPolygon') … else if (… 'Polygon') …`). -/
def featureMatch (pt : ℚ × ℚ) (f : BoundaryFeature) : Bool :=
  match f.geometry with
  | Geometry.multiPolygon c => isPointInMultiPolygon pt c
  | Geometry.polygon c => isPointInPolygon pt c

/-- The match record built for a containing feature:
`const firId = feature.properties.id || 'Unknown FIR';`
`const firName = firNamesMap.get(firId) || firId;`
`matchingFIRs.push({ id: firId, name: firName, isOceanic: feature.properties.oceanic === '1' });` -/
def toFIRMatch (firNamesMap : List (String × String)) (f : BoundaryFeature) : FIRMatch :=
  let firId := jsOrS (some f.id) "Unknown FIR"
  { id := firId
    name := jsOrS (firNamesMap.lookup firId) firId
    isOceanic := f.oceanic == "1" }

/-- Embedding of `detectCurrentFIR`: collect every containing feature (in
encounter order), return `none` when there is no match, otherwise the
first land-based match, otherwise the first match. `firNamesMap` is the
association list parsed from the `[FIRs]` section. -/
def detectCurrentFIR (pt : ℚ × ℚ) (features : List BoundaryFeature)
    (firNamesMap : List (String × String)) : Option FIRMatch :=
  let matchingFIRs := (features.filter (featureMatch pt)).map (toFIRMatch firNamesMap)
  if matchingFIRs.isEmpty then none
  else
    let landBasedFIRs := matchingFIRs.filter fun fir => !fir.isOceanic
    match landBasedFIRs with
    | fir :: _ => some fir
    | [] => matchingFIRs.head?

/-! ## VATSpy reference-data parser

Embedding of `parseVatspyData` (`utils/vatspy-parser.ts`). The fetch of
`VATSpy.dat` is elided: the file content is the function's argument. The JS
`Map` is modelled as an insertion-ordered association list (`Map.set` on a
fresh key appends; `Map.has`/`Map.get` is `List.lookup`). -/

/-- `trimmedLine.split('|')` for a raw line (the line is trimmed first,
as in the source's `const trimmedLine = line.trim()`). -/
def lineParts (line : String) : List String :=
  jsSplit '|' (jsTrim line)

/-- `parts[0].trim()` — the ICAO field of an airport line. -/
def lineIcao (line : String) : String :=
  jsTrim ((lineParts line).getD 0 "")

/-- `parts[1].trim()` — the name field of an airport line. -/
def lineName (line : String) : String :=
  jsTrim ((lineParts line).getD 1 "")

/-- `parts[6].trim()` — the is-pseudo flag field of an airport line. -/
def linePseudoFlag (line : String) : String :=
  jsTrim ((lineParts line).getD 6 "")

/-- The `VatspyAirport` record built from an airport line:
`{ icao, name, latitude: parseFloat(parts[2]), longitude: parseFloat(parts[3]),
iata: parts[4].trim() || undefined, fir: parts[5].trim(), isPseudo: false }`.
Note the source stores the `parseFloat` results without any `isNaN` check. -/
def lineRecord (line : String) : VatspyAirport :=
  { icao := lineIcao line
    name := lineName line
    latitude := jsParseFloat ((lineParts line).getD 2 "")
    longitude := jsParseFloat ((lineParts line).getD 3 "")
    iata := if jsTrim ((lineParts line).getD 4 "") = "" then none
            else some (jsTrim ((lineParts line).getD 4 ""))
    fir := jsTrim ((lineParts line).getD 5 "")
    isPseudo := false }

/-- State threaded through the `for (const line of lines)` loop of
`parseVatspyData`. -/
structure ParseState where
  inAirportsSection : Bool
  airports : List (String × VatspyAirport)
deriving DecidableEq

/-- One iteration of the line loop of `parseVatspyData`: skip blank and
`;` comment lines; a `[...]` header line sets the section flag (true
exactly for `[Airports]`); outside the airports section the line is
ignored; inside it, a line with at least 7 pipe-delimited fields is
admitted iff it is not pseudo, its ICAO key is not already present, and
its ICAO and name are non-empty. -/
def processLine (st : ParseState) (line : String) : ParseState :=
  let trimmedLine := jsTrim line
  if trimmedLine = "" ∨ jsStartsWithChar trimmedLine ';' = true then st
  else if jsStartsWithChar trimmedLine '[' = true ∧ jsEndsWithChar trimmedLine ']' = true then
    { st with inAirportsSection := trimmedLine == "[Airports]" }
  else if st.inAirportsSection = false then st
  else if (lineParts line).length ≥ 7 then
    if linePseudoFlag line ≠ "1" ∧ st.airports.lookup (lineIcao line) = none ∧
        lineIcao line ≠ "" ∧ lineName line ≠ "" then
      { st with airports := st.airports ++ [(lineIcao line, lineRecord line)] }
    else st
  else st

/-- Embedding of `parseVatspyData`: split the file content on newlines and
run the line loop from the initial state (no section, empty map). -/
def parseVatspyData (fileContent : String) : List (String × VatspyAirport) :=
  ((jsSplit '\n' fileContent).foldl processLine ⟨false, []⟩).airports

/-! ## The module-level cache of `parseVatspyData` (single-flight claim)

The source keeps `let cachedAirports: Map<…> | null = null;` at module
level; `parseVatspyData` returns it if non-null, otherwise runs the parse
(several `await` suspension points) and only then assigns the cache. The
interleaving of concurrent callers of this `async` function is modelled as
a scheduler over per-caller phases: a caller suspends after the initial
cache check (at the first `await`, before any parsing work) and later runs
the body to completion. The body after the check never re-reads the cache,
so it is one atomic step for the purpose of counting parse executions. -/

/-- Phase of one caller of the cached `parseVatspyData`. -/
inductive CallerPhase where
  | notStarted
  | checked
  | done (result : List (String × VatspyAirport))
deriving DecidableEq

/-- The module-level cache plus the callers' phases; `parseCount` counts
executions of the parse body. -/
structure StoreState where
  cachedAirports : Option (List (String × VatspyAirport))
  parseCount : ℕ
  callers : List CallerPhase
deriving DecidableEq

/-- One scheduler step: caller `i` runs to its next suspension point. A
`notStarted` caller executes `if (cachedAirports) return cachedAirports;`
— returning the cached snapshot when present, otherwise entering the body
and suspending at its first `await`. A `checked` caller runs the body: it
executes the parse, assigns `cachedAirports`, and returns its own result.
A finished (or out-of-range) caller index changes nothing. -/
def stepCaller (text : String) (s : StoreState) (i : ℕ) : StoreState :=
  match s.callers.get? i with
  | some CallerPhase.notStarted =>
    match s.cachedAirports with
    | some cached => { s with callers := s.callers.set i (CallerPhase.done cached) }
    | none => { s with callers := s.callers.set i CallerPhase.checked }
  | some CallerPhase.checked =>
    { cachedAirports := some (parseVatspyData text)
      parseCount := s.parseCount + 1
      callers := s.callers.set i (CallerPhase.done (parseVatspyData text)) }
  | _ => s

/-- Run a schedule (a list of caller indices) from a state. -/
def runSchedule (text : String) (s : StoreState) (schedule : List ℕ) : StoreState :=
  schedule.foldl (stepCaller text) s

/-! ## Helper lemmas for the weather classifier -/

theorem getFlightCategory_eq_cascade (v : Option ℚ) (clouds : List CloudLayer) :
    getFlightCategory v clouds = categoryCascade (effectiveVisibility v) (effectiveCeiling clouds) :=
  rfl

theorem categoryCascade_spec (x y : ℚ) :
    (categoryCascade x y = FlightCategory.LIFR ↔ x < 1 ∨ y < 500) ∧
    (categoryCascade x y = FlightCategory.IFR ↔ (1 ≤ x ∧ 500 ≤ y) ∧ (x < 3 ∨ y < 1000)) ∧
    (categoryCascade x y = FlightCategory.MVFR ↔ (3 ≤ x ∧ 1000 ≤ y) ∧ (x < 5 ∨ y < 3000)) ∧
    (categoryCascade x y = FlightCategory.VFR ↔ 5 ≤ x ∧ 3000 ≤ y) := by
  unfold categoryCascade
  split_ifs with h1 h2 h3
  · refine ⟨iff_of_true rfl h1, iff_of_false (fun h => nomatch h) ?_,
      iff_of_false (fun h => nomatch h) ?_, iff_of_false (fun h => nomatch h) ?_⟩
    · rintro ⟨⟨hx, hy⟩, -⟩
      rcases h1 with h | h <;> linarith
    · rintro ⟨⟨hx, hy⟩, -⟩
      rcases h1 with h | h <;> linarith
    · rintro ⟨hx, hy⟩
      rcases h1 with h | h <;> linarith
  · push_neg at h1
    refine ⟨iff_of_false (fun h => nomatch h) ?_, iff_of_true rfl ⟨h1, h2⟩,
      iff_of_false (fun h => nomatch h) ?_, iff_of_false (fun h => nomatch h) ?_⟩
    · rintro (h | h) <;> linarith [h1.1, h1.2]
    · rintro ⟨⟨hx, hy⟩, -⟩
      rcases h2 with h | h <;> linarith
    · rintro ⟨hx, hy⟩
      rcases h2 with h | h <;> linarith
  · push_neg at h1 h2
    refine ⟨iff_of_false (fun h => nomatch h) ?_, iff_of_false (fun h => nomatch h) ?_,
      iff_of_true rfl ⟨h2, h3⟩, iff_of_false (fun h => nomatch h) ?_⟩
    · rintro (h | h) <;> linarith [h1.1, h1.2]
    · rintro ⟨-, h | h⟩ <;> linarith [h2.1, h2.2]
    · rintro ⟨hx, hy⟩
      rcases h3 with h | h <;> linarith
  · push_neg at h1 h2 h3
    refine ⟨iff_of_false (fun h => nomatch h) ?_, iff_of_false (fun h => nomatch h) ?_,
      iff_of_false (fun h => nomatch h) ?_, iff_of_true rfl h3⟩
    · rintro (h | h) <;> linarith [h1.1, h1.2]
    · rintro ⟨-, h | h⟩ <;> linarith [h2.1, h2.2]
    · rintro ⟨-, h | h⟩ <;> linarith [h3.1, h3.2]

theorem find?_append_of_none {p : CloudLayer → Bool} :
    ∀ (pre rest : List CloudLayer), (∀ c ∈ pre, p c = false) →
    (pre ++ rest).find? p = rest.find? p
  | [], _, _ => rfl
  | a :: l, rest, h => by
    have ha : ¬(p a = true) := by simp [h a (List.mem_cons_self a l)]
    rw [List.cons_append, List.find?_cons_of_neg _ ha]
    exact find?_append_of_none l rest fun c hc => h c (List.mem_cons_of_mem a hc)

/-! ## Claims about the weather classifier -/

/-- C5 counterexample: the claim's rule table demands LIFR for a reported
visibility of exactly 0 (0 < 1, ceiling missing), but `getFlightCategory`
treats the reported 0 as falsy, substitutes the default 10, and returns
VFR. `claimFlightCategory` is the claim's own rule, which defaults only on
a missing field. -/
theorem claim_C5_counterexample :
    getFlightCategory (some 0) [] = FlightCategory.VFR ∧
    claimFlightCategory (some 0) none = FlightCategory.LIFR ∧
    FlightCategory.VFR ≠ FlightCategory.LIFR := by
  refine ⟨?_, ?_, by decide⟩ <;> norm_num [getFlightCategory, claimFlightCategory, jsOrQ]

/-- C5 amended: with the defaults applied to missing *or zero* (JS-falsy)
fields — effective visibility `jsOrQ v 10`, effective ceiling from the
first broken/overcast layer via `jsOrQ _ 10000` — the category returned by
`getFlightCategory` is exactly the first matching threshold rule: LIFR iff
`vis < 1 ∨ ceil < 500`; else IFR iff `vis < 3 ∨ ceil < 1000`; else MVFR iff
`vis < 5 ∨ ceil < 3000`; else VFR. -/
theorem claim_C5_amended (v : Option ℚ) (clouds : List CloudLayer) :
    (getFlightCategory v clouds = FlightCategory.LIFR ↔
      effectiveVisibility v < 1 ∨ effectiveCeiling clouds < 500) ∧
    (getFlightCategory v clouds = FlightCategory.IFR ↔
      (1 ≤ effectiveVisibility v ∧ 500 ≤ effectiveCeiling clouds) ∧
      (effectiveVisibility v < 3 ∨ effectiveCeiling clouds < 1000)) ∧
    (getFlightCategory v clouds = FlightCategory.MVFR ↔
      (3 ≤ effectiveVisibility v ∧ 1000 ≤ effectiveCeiling clouds) ∧
      (effectiveVisibility v < 5 ∨ effectiveCeiling clouds < 3000)) ∧
    (getFlightCategory v clouds = FlightCategory.VFR ↔
      5 ≤ effectiveVisibility v ∧ 3000 ≤ effectiveCeiling clouds) := by
  rw [getFlightCategory_eq_cascade]
  exact categoryCascade_spec _ _

/-- C6 counterexample: with layers `[BKN 3000 ft, OVC 500 ft]` the code
takes the *first* broken/overcast layer (3000 ft) as ceiling and returns
VFR, while the lowest such layer is 500 ft, which the claim's rule
(`ceiling < 1000`) would classify IFR — as the code itself does once the
same layers are reordered. So the ceiling is not the minimal-height
broken/overcast layer and the result is not order-independent. -/
theorem claim_C6_counterexample :
    getFlightCategory none [⟨"BKN", 3000⟩, ⟨"OVC", 500⟩] = FlightCategory.VFR ∧
    getFlightCategory none [⟨"OVC", 500⟩, ⟨"BKN", 3000⟩] = FlightCategory.IFR := by
  constructor <;>
    norm_num [getFlightCategory, jsOrQ, List.find?_cons_of_pos, List.find?_cons_of_neg,
      isCeilingLayer]

/-- C6 amended: the ceiling used by `getFlightCategory` is the height of
the *first* broken-or-overcast layer in list order (not the lowest): any
prefix of non-BKN/OVC layers is skipped and everything after the first
BKN/OVC layer is ignored, and when no layer is broken or overcast the
classifier behaves as if there were no clouds at all. -/
theorem claim_C6_amended :
    (∀ (v : Option ℚ) (pre post : List CloudLayer) (l : CloudLayer),
      (∀ c ∈ pre, isCeilingLayer c = false) → isCeilingLayer l = true →
      getFlightCategory v (pre ++ l :: post) = getFlightCategory v [l]) ∧
    (∀ (v : Option ℚ) (clouds : List CloudLayer),
      (∀ c ∈ clouds, isCeilingLayer c = false) →
      getFlightCategory v clouds = getFlightCategory v []) := by
  constructor
  · intro v pre post l hpre hl
    unfold getFlightCategory
    rw [find?_append_of_none _ _ hpre, List.find?_cons_of_pos _ hl,
      List.find?_cons_of_pos _ hl]
  · intro v clouds hclouds
    unfold getFlightCategory
    rw [List.find?_eq_none.mpr (by simpa using hclouds)]
    rfl

/-- Witness for the amended C6: a FEW prefix is skipped and the OVC layer
behind the first BKN layer is ignored, so `[FEW 100, BKN 800, OVC 200]`
classifies exactly like `[BKN 800]`. -/
theorem claim_C6_amended_witness :
    getFlightCategory none [⟨"FEW", 100⟩, ⟨"BKN", 800⟩, ⟨"OVC", 200⟩] =
      getFlightCategory none [⟨"BKN", 800⟩] :=
  claim_C6_amended.1 none [⟨"FEW", 100⟩] [⟨"OVC", 200⟩] ⟨"BKN", 800⟩
    (by decide) (by decide)

/-- C10: `getFlightCategory` treats a reported value of exactly 0 as
missing (JS falsiness of `0` under `||`): a zero visibility is replaced by
the 10-statute-mile default, so zero visibility with no broken/overcast
layer classifies VFR; and when the first broken/overcast layer has height
exactly 0 the 10000 ft ceiling default applies, so the classifier behaves
as if there were no clouds. -/
theorem claim_C10_zero_is_falsy :
    (∀ clouds : List CloudLayer,
      getFlightCategory (some 0) clouds = getFlightCategory none clouds) ∧
    (∀ clouds : List CloudLayer, (∀ c ∈ clouds, isCeilingLayer c = false) →
      getFlightCategory (some 0) clouds = FlightCategory.VFR) ∧
    (∀ (v : Option ℚ) (clouds : List CloudLayer) (l : CloudLayer),
      clouds.find? isCeilingLayer = some l → l.height = 0 →
      getFlightCategory v clouds = getFlightCategory v []) := by
  refine ⟨fun clouds => ?_, fun clouds h => ?_, fun v clouds l hfind hh => ?_⟩
  · unfold getFlightCategory
    norm_num [jsOrQ]
  · unfold getFlightCategory
    rw [List.find?_eq_none.mpr (by simpa using h)]
    norm_num [jsOrQ]
  · have hceil : (clouds.find? isCeilingLayer).map CloudLayer.height = some 0 := by
      rw [hfind]
      simp [hh]
    unfold getFlightCategory
    rw [hceil]
    norm_num [jsOrQ, List.find?_nil]

/-- Witness for C10: zero visibility over scattered clouds is VFR, and a
zero-height BKN layer classifies exactly like a clear sky. -/
theorem claim_C10_zero_is_falsy_witness :
    getFlightCategory (some 0) [⟨"SCT", 200⟩] = FlightCategory.VFR ∧
    getFlightCategory (some 2) [⟨"BKN", 0⟩] = getFlightCategory (some 2) [] :=
  ⟨claim_C10_zero_is_falsy.2.1 [⟨"SCT", 200⟩] (by decide),
   claim_C10_zero_is_falsy.2.2 (some 2) [⟨"BKN", 0⟩] ⟨"BKN", 0⟩ (by decide) rfl⟩

/-! ## Claims about the ETA computation -/

/-- C7: the duration formatter has no sixty-minute rollover guard. With a
groundspeed of 60 knots and a remaining distance of 119.95 nautical miles,
`timeHours = 2399/1200`, `Math.floor` gives 1 hour, and
`Math.round(0.99916... * 60) = 60` minutes, so `calculateETA` renders the
duration as "1h 60m" instead of normalizing to "2h 0m" as the claim (and
the spec's required contract) demands. -/
theorem claim_C7_sixty_minutes_not_normalized :
    (calculateETA (fun _ _ _ _ => 2399 / 20)
      (fun s => some ⟨s, "Los Angeles Intl", some 34, some (-118), none, "KZLA", false⟩)
      ⟨40, -74, 60, some ⟨"KLAX"⟩⟩ 0).map ETAResult.duration = some "1h 60m" := by
  have h1 : (⌊(2399 : ℚ) / 1200⌋ : ℤ) = 1 := by
    rw [Int.floor_eq_iff]
    norm_num
  have h2 : jsRound (((2399 : ℚ) / 1200 - ((1 : ℤ) : ℚ)) * 60) = 60 := by
    unfold jsRound
    rw [Int.floor_eq_iff]
    norm_num
  have hdur : durationStringOf ((2399 : ℚ) / 1200) = "1h 60m" := by
    simp only [durationStringOf, h1, h2]
    norm_num
    rfl
  unfold calculateETA
  norm_num
  exact ⟨_, ⟨⟨by decide, rfl⟩, hdur⟩⟩

/-- C8: `calculateETA` yields the "no ETA" result (`none`) whenever the
flight plan or its arrival field is absent, the groundspeed is
non-positive, the destination airport cannot be resolved, or its
coordinates are unavailable (absent/NaN or JS-falsy 0); and whenever it
does produce a result the groundspeed was strictly positive, so the
`distance / groundspeed` step never divides by a non-positive speed —
the embedding is total, so no error is thrown and no NaN escapes. -/
theorem claim_C8_invalid_inputs_yield_none (dist : ℚ → ℚ → ℚ → ℚ → ℚ)
    (getAirport : String → Option VatspyAirport) (pilot : VatsimPilot) (nowMs : ℚ) :
    (pilot.flight_plan = none → calculateETA dist getAirport pilot nowMs = none) ∧
    (∀ fp, pilot.flight_plan = some fp → fp.arrival = "" →
      calculateETA dist getAirport pilot nowMs = none) ∧
    (pilot.groundspeed ≤ 0 → calculateETA dist getAirport pilot nowMs = none) ∧
    (∀ fp, pilot.flight_plan = some fp → getAirport fp.arrival = none →
      calculateETA dist getAirport pilot nowMs = none) ∧
    (∀ fp a, pilot.flight_plan = some fp → getAirport fp.arrival = some a →
      (a.latitude = none ∨ a.latitude = some 0 ∨ a.longitude = none ∨ a.longitude = some 0) →
      calculateETA dist getAirport pilot nowMs = none) ∧
    (∀ r, calculateETA dist getAirport pilot nowMs = some r → 0 < pilot.groundspeed) := by
  refine ⟨fun h => ?_, fun fp hfp harr => ?_, fun hgs => ?_, fun fp hfp hga => ?_,
    fun fp a hfp hga hco => ?_, fun r hr => ?_⟩
  · unfold calculateETA
    rw [h]
  · unfold calculateETA
    rw [hfp]
    simp [harr]
  · unfold calculateETA
    cases hpl : pilot.flight_plan with
    | none => rfl
    | some fp => simp [hgs]
  · unfold calculateETA
    simp only [hfp]
    rw [hga]
    split_ifs <;> rfl
  · unfold calculateETA
    simp only [hfp]
    rw [hga]
    obtain ⟨ic, nm, lat, lon, ia, fr, ps⟩ := a
    simp only at hco
    split_ifs with h
    · rfl
    · rcases hco with hc | hc | hc | hc
      · subst hc
        rfl
      · subst hc
        cases lon with
        | none => rfl
        | some q => simp
      · subst hc
        cases lat with
        | none => rfl
        | some q => rfl
      · subst hc
        cases lat with
        | none => rfl
        | some q => simp
  · by_contra hgs
    push_neg at hgs
    have hnone : calculateETA dist getAirport pilot nowMs = none := by
      unfold calculateETA
      cases hpl : pilot.flight_plan with
      | none => rfl
      | some fp => simp [hgs]
    rw [hnone] at hr
    exact Option.noConfusion hr

/-- Witness for C8: a pilot with groundspeed −5 and an unresolvable
destination gets `none`, via two different conjuncts of the theorem. -/
theorem claim_C8_invalid_inputs_yield_none_witness :
    calculateETA (fun _ _ _ _ => 100) (fun _ => none) ⟨0, 0, -5, some ⟨"KLAX"⟩⟩ 0 = none ∧
    calculateETA (fun _ _ _ _ => 100) (fun _ => none) ⟨0, 0, 400, some ⟨"KLAX"⟩⟩ 0 = none :=
  ⟨(claim_C8_invalid_inputs_yield_none _ _ _ _).2.2.1 (by norm_num),
   (claim_C8_invalid_inputs_yield_none _ _ _ _).2.2.2.1 ⟨"KLAX"⟩ rfl rfl⟩

/-! ## Helper lemmas for the geometry -/

theorem ringsLoop_succ (pt : ℚ × ℚ) (i : ℕ) (rest : List (List (ℚ × ℚ))) :
    ringsLoop pt (i + 1) rest = rest.all fun r => !isPointInRing pt r := by
  induction rest generalizing i with
  | nil => rfl
  | cons r rest ih =>
    simp only [ringsLoop, List.all_cons]
    cases hin : isPointInRing pt r <;> simp [hin, ih]

theorem rayHit_self (pt q : ℚ × ℚ) : rayHit pt q q = false := by
  simp [rayHit]

theorem foldl_rayHit_parity (pt : ℚ × ℚ) :
    ∀ (l : List ((ℚ × ℚ) × (ℚ × ℚ))) (b : Bool),
    l.foldl (fun inside e => if rayHit pt e.1 e.2 then !inside else inside) b =
      Bool.xor b (decide (l.countP (fun e => rayHit pt e.1 e.2) % 2 = 1))
  | [], b => by simp
  | a :: l, b => by
    rw [List.foldl_cons, foldl_rayHit_parity pt l, List.countP_cons]
    rcases Nat.mod_two_eq_zero_or_one (List.countP (fun e => rayHit pt e.1 e.2) l) with hp | hp <;>
      cases hf : rayHit pt a.1 a.2 <;>
        simp [hf, hp, Nat.add_mod]

theorem isPointInRing_parity (pt p : ℚ × ℚ) (ps : List (ℚ × ℚ)) :
    isPointInRing pt (p :: ps) =
      decide ((((p :: ps).zip ((p :: ps).getLast (List.cons_ne_nil p ps) :: p :: ps)).countP
        (fun e => rayHit pt e.1 e.2)) % 2 = 1) := by
  simp only [isPointInRing]
  rw [foldl_rayHit_parity]
  simp

/-- The ray-casting toggle count is unchanged by explicitly closing a ring:
the extra wrap edge of the closed ring is degenerate (both endpoints equal)
and the remaining edge multiset is the same, so containment agrees. -/
theorem isPointInRing_closed (pt p : ℚ × ℚ) (ps : List (ℚ × ℚ)) :
    isPointInRing pt ((p :: ps) ++ [p]) = isPointInRing pt (p :: ps) := by
  have hlast2 : (p :: (ps ++ [p])).getLast (List.cons_ne_nil p (ps ++ [p])) = p :=
    List.getLast_concat (p :: ps)
  have hgoal : isPointInRing pt (p :: (ps ++ [p])) = isPointInRing pt (p :: ps) := by
    rw [isPointInRing_parity pt p (ps ++ [p]), isPointInRing_parity pt p ps, hlast2]
    rw [List.zip_cons_cons, List.zip_cons_cons]
    have hstar : (ps ++ [p]).zip (p :: (ps ++ [p])) = (ps ++ [p]).zip (p :: ps) := by
      have h := @List.zip_append (ℚ × ℚ) (ℚ × ℚ) (ps ++ [p]) [] (p :: ps) [p] (by simp)
      simpa using h
    rw [hstar]
    have hdecomp : (p :: ps).dropLast ++ [(p :: ps).getLast (List.cons_ne_nil p ps)] = p :: ps :=
      List.dropLast_append_getLast _
    set lastEl := (p :: ps).getLast (List.cons_ne_nil p ps) with hlastEl
    set A := (p :: ps).dropLast with hA
    have hlen : ps.length = A.length := by
      rw [hA]
      simp
    have hB : (ps ++ [p]).zip (p :: ps) = ps.zip A ++ [(p, lastEl)] := by
      conv_lhs => rw [← hdecomp]
      rw [@List.zip_append (ℚ × ℚ) (ℚ × ℚ) ps [p] A [lastEl] hlen]
      simp
    have hC : ps.zip (p :: ps) = ps.zip A := by
      conv_lhs => rw [← hdecomp]
      have h := @List.zip_append (ℚ × ℚ) (ℚ × ℚ) ps [] A [lastEl] hlen
      simpa using h
    rw [hB, hC]
    simp only [List.countP_cons, List.countP_append, List.countP_nil]
    have hself : rayHit pt p p = false := rayHit_self pt p
    cases hpl : rayHit pt p lastEl <;> simp [hself, hpl, Nat.add_mod]
  exact hgoal

/-! ## Claim C2: polygon containment with holes, MultiPolygon, unclosed rings -/

/-- C2: a point is inside a polygon (given as exterior ring plus hole
rings) iff it is inside the exterior ring and inside no hole ring; it is
inside a MultiPolygon iff it is inside at least one constituent polygon;
and the ray-casting ring test is unchanged by explicitly closing a ring
(appending the first point), so closure of the data is never assumed. -/
theorem claim_C2_polygon_containment :
    (∀ (pt : ℚ × ℚ) (exterior : List (ℚ × ℚ)) (holes : List (List (ℚ × ℚ))),
      isPointInPolygon pt (exterior :: holes) = true ↔
        isPointInRing pt exterior = true ∧ ∀ h ∈ holes, isPointInRing pt h = false) ∧
    (∀ (pt : ℚ × ℚ) (mp : List (List (List (ℚ × ℚ)))),
      isPointInMultiPolygon pt mp = true ↔
        ∃ polygon ∈ mp, isPointInPolygon pt polygon = true) ∧
    (∀ (pt p : ℚ × ℚ) (ps : List (ℚ × ℚ)),
      isPointInRing pt ((p :: ps) ++ [p]) = isPointInRing pt (p :: ps)) := by
  refine ⟨fun pt exterior holes => ?_, fun pt mp => ?_, isPointInRing_closed⟩
  · show ringsLoop pt 0 (exterior :: holes) = true ↔ _
    simp only [ringsLoop]
    rw [ringsLoop_succ]
    cases hin : isPointInRing pt exterior <;> simp [hin]
  · simp [isPointInMultiPolygon]

/-- Witness for C2: the spec's square-with-hole example. The point (2,2)
between the hole and the exterior boundary is contained (via the
first conjunct of the theorem), and (5,5) inside the hole is not. -/
theorem claim_C2_polygon_containment_witness :
    isPointInPolygon (2, 2)
      [[(0, 0), (10, 0), (10, 10), (0, 10)], [(4, 4), (6, 4), (6, 6), (4, 6)]] = true ∧
    isPointInPolygon (5, 5)
      [[(0, 0), (10, 0), (10, 10), (0, 10)], [(4, 4), (6, 4), (6, 6), (4, 6)]] ≠ true := by
  constructor
  · refine (claim_C2_polygon_containment.1 (2, 2) [(0, 0), (10, 0), (10, 10), (0, 10)]
      [[(4, 4), (6, 4), (6, 6), (4, 6)]]).mpr ⟨?_, ?_⟩
    · norm_num [isPointInRing, rayHit, List.getLast, List.zip_cons_cons]
    · intro h hh
      rw [List.mem_singleton.mp hh]
      norm_num [isPointInRing, rayHit, List.getLast, List.zip_cons_cons]
  · intro hcon
    have h := (claim_C2_polygon_containment.1 (5, 5) [(0, 0), (10, 0), (10, 10), (0, 10)]
      [[(4, 4), (6, 4), (6, 6), (4, 6)]]).mp hcon
    have hhole := h.2 [(4, 4), (6, 4), (6, 6), (4, 6)] (List.mem_singleton.mpr rfl)
    revert hhole
    norm_num [isPointInRing, rayHit, List.getLast, List.zip_cons_cons]

/-! ## Claim C1: FIR classification and land-over-ocean tie-break -/

/-- Branch-free form of `detectCurrentFIR`: first land-based match if any,
else first match, else `none`. -/
theorem detectCurrentFIR_eq (pt : ℚ × ℚ) (features : List BoundaryFeature)
    (firNamesMap : List (String × String)) :
    detectCurrentFIR pt features firNamesMap =
      ((((features.filter (featureMatch pt)).map (toFIRMatch firNamesMap)).filter
          fun fir => !fir.isOceanic).head?).or
        (((features.filter (featureMatch pt)).map (toFIRMatch firNamesMap)).head?) := by
  simp only [detectCurrentFIR]
  cases hM : (features.filter (featureMatch pt)).map (toFIRMatch firNamesMap) with
  | nil => rfl
  | cons m ms =>
    cases hL : (m :: ms).filter (fun fir => !fir.isOceanic) with
    | nil => rfl
    | cons fir rest => rfl

/-- C1: `detectCurrentFIR` evaluates every feature and collects all
containing matches: it returns `none` iff no feature contains the point;
whenever the feature list splits as `pre ++ f :: post` with `f` a
containing land feature and every containing feature of `pre` oceanic, it
returns `f`'s record (the first land-based match in encounter order); and
when every containing feature is oceanic it returns the record of the
first containing feature. -/
theorem claim_C1_fir_classification :
    (∀ (pt : ℚ × ℚ) (features : List BoundaryFeature) (names : List (String × String)),
      detectCurrentFIR pt features names = none ↔
        ∀ f ∈ features, featureMatch pt f = false) ∧
    (∀ (pt : ℚ × ℚ) (pre post : List BoundaryFeature) (f : BoundaryFeature)
        (names : List (String × String)),
      featureMatch pt f = true → (f.oceanic == "1") = false →
      (∀ g ∈ pre, featureMatch pt g = true → (g.oceanic == "1") = true) →
      detectCurrentFIR pt (pre ++ f :: post) names = some (toFIRMatch names f)) ∧
    (∀ (pt : ℚ × ℚ) (pre post : List BoundaryFeature) (f : BoundaryFeature)
        (names : List (String × String)),
      featureMatch pt f = true → (∀ g ∈ pre, featureMatch pt g = false) →
      (∀ g ∈ pre ++ f :: post, featureMatch pt g = true → (g.oceanic == "1") = true) →
      detectCurrentFIR pt (pre ++ f :: post) names = some (toFIRMatch names f)) := by
  refine ⟨fun pt features names => ?_, fun pt pre post f names hf hland hpre => ?_,
    fun pt pre post f names hf hpre hall => ?_⟩
  · rw [detectCurrentFIR_eq]
    constructor
    · intro h
      cases hfil : features.filter (featureMatch pt) with
      | nil =>
        intro f hfm
        exact Bool.eq_false_iff.mpr fun hc =>
          (List.filter_eq_nil_iff.mp hfil) f hfm (by simp [hc])
      | cons g gs =>
        rw [hfil] at h
        cases hL : ((g :: gs).map (toFIRMatch names)).filter (fun fir => !fir.isOceanic) with
        | nil => simp [hL] at h
        | cons fir rest => simp [hL] at h
    · intro h
      have hfil : features.filter (featureMatch pt) = [] :=
        List.filter_eq_nil_iff.mpr fun f hfm => by simp [h f hfm]
      rw [hfil]
      rfl
  · rw [detectCurrentFIR_eq, List.filter_append, List.filter_cons_of_pos hf,
      List.map_append, List.map_cons, List.filter_append]
    have hfland : ((toFIRMatch names f).isOceanic : Bool) = false := by
      simp [toFIRMatch, hland]
    have hprenil : ((pre.filter (featureMatch pt)).map (toFIRMatch names)).filter
        (fun fir => !fir.isOceanic) = [] := by
      rw [List.filter_eq_nil_iff]
      intro x hx
      obtain ⟨g, hg, rfl⟩ := List.mem_map.mp hx
      have hgm := List.mem_filter.mp hg
      have hgo := hpre g hgm.1 hgm.2
      simp [toFIRMatch, hgo]
    rw [hprenil, List.nil_append, List.filter_cons_of_pos (by simp [hfland])]
    rfl
  · rw [detectCurrentFIR_eq]
    have hLnil : (((pre ++ f :: post).filter (featureMatch pt)).map (toFIRMatch names)).filter
        (fun fir => !fir.isOceanic) = [] := by
      rw [List.filter_eq_nil_iff]
      intro x hx
      obtain ⟨g, hg, rfl⟩ := List.mem_map.mp hx
      have hgm := List.mem_filter.mp hg
      have hgo := hall g hgm.1 hgm.2
      simp [toFIRMatch, hgo]
    have hprenil : pre.filter (featureMatch pt) = [] :=
      List.filter_eq_nil_iff.mpr fun g hg => by simp [hpre g hg]
    rw [hLnil, List.filter_append, hprenil, List.nil_append,
      List.filter_cons_of_pos hf, List.map_cons]
    rfl

/-- Witness for C1: the spec's land-over-ocean example. An oceanic feature
and a land feature share the same square; for a point inside both,
classification returns the land feature's record even though the oceanic
feature comes first in encounter order. -/
theorem claim_C1_fir_classification_witness :
    detectCurrentFIR (2, 2)
      [⟨"OCEA1", "1", Geometry.polygon [[(0, 0), (4, 0), (4, 4), (0, 4)]]⟩,
       ⟨"LAND1", "0", Geometry.polygon [[(0, 0), (4, 0), (4, 4), (0, 4)]]⟩]
      [("LAND1", "Land FIR")] = some ⟨"LAND1", "Land FIR", false⟩ := by
  have hm : featureMatch (2, 2)
      (⟨"LAND1", "0", Geometry.polygon [[(0, 0), (4, 0), (4, 4), (0, 4)]]⟩ : BoundaryFeature)
      = true := by
    show isPointInPolygon (2, 2) [[(0, 0), (4, 0), (4, 4), (0, 4)]] = true
    norm_num [isPointInPolygon, ringsLoop, isPointInRing, rayHit, List.getLast,
      List.zip_cons_cons]
  have h := claim_C1_fir_classification.2.1 (2, 2)
    [⟨"OCEA1", "1", Geometry.polygon [[(0, 0), (4, 0), (4, 4), (0, 4)]]⟩] []
    ⟨"LAND1", "0", Geometry.polygon [[(0, 0), (4, 0), (4, 4), (0, 4)]]⟩
    [("LAND1", "Land FIR")] hm (by decide)
    (fun g hg _ => by
      rw [List.mem_singleton.mp hg]
      decide)
  exact h.trans (by decide)

/-! ## Helper lemmas for the parser -/

theorem processLine_preserves (st : ParseState) (line : String) (k : String) (r : VatspyAirport)
    (hk : st.airports.lookup k = some r) :
    (processLine st line).airports.lookup k = some r := by
  simp only [processLine]
  split_ifs with h1 h2 h3 h4 h5 <;>
    first
    | exact hk
    | (rw [List.lookup_append, hk]; rfl)

theorem processLine_skips (st : ParseState) (line : String)
    (h : linePseudoFlag line = "1" ∨ lineIcao line = "" ∨ lineName line = "" ∨
      st.airports.lookup (lineIcao line) ≠ none) :
    (processLine st line).airports = st.airports := by
  simp only [processLine]
  split_ifs with h1 h2 h3 h4 h5
  · rfl
  · rfl
  · rfl
  · rcases h with h' | h' | h' | h'
    · exact absurd h' h5.1
    · exact absurd h' h5.2.2.1
    · exact absurd h' h5.2.2.2
    · exact absurd h5.2.1 h'
  · rfl
  · rfl

theorem processLine_admits (st : ParseState) (line : String)
    (hsec : st.inAirportsSection = true)
    (hblank : ¬(jsTrim line = "" ∨ jsStartsWithChar (jsTrim line) ';' = true))
    (hheader : ¬(jsStartsWithChar (jsTrim line) '[' = true ∧
      jsEndsWithChar (jsTrim line) ']' = true))
    (hlen : (lineParts line).length ≥ 7)
    (hps : linePseudoFlag line ≠ "1")
    (hnew : st.airports.lookup (lineIcao line) = none)
    (hic : lineIcao line ≠ "")
    (hnm : lineName line ≠ "") :
    (processLine st line).airports = st.airports ++ [(lineIcao line, lineRecord line)] := by
  simp only [processLine]
  rw [if_neg hblank, if_neg hheader, if_neg (by simp [hsec]), if_pos hlen,
    if_pos ⟨hps, hnew, hic, hnm⟩]

theorem processLine_lookup_some (st : ParseState) (line : String) (k : String) (r : VatspyAirport)
    (h : (processLine st line).airports.lookup k = some r) :
    st.airports.lookup k = some r ∨
      (k = lineIcao line ∧ r = lineRecord line ∧ linePseudoFlag line ≠ "1" ∧
        lineIcao line ≠ "" ∧ lineName line ≠ "") := by
  simp only [processLine] at h
  split_ifs at h with h1 h2 h3 h4 h5
  · exact Or.inl h
  · exact Or.inl h
  · exact Or.inl h
  · rw [List.lookup_append] at h
    cases hst : st.airports.lookup k with
    | some r' =>
      rw [hst] at h
      exact Or.inl h
    | none =>
      rw [hst] at h
      cases hbeq : k == lineIcao line with
      | false =>
        simp [List.lookup_cons, hbeq, List.lookup] at h
      | true =>
        simp [List.lookup_cons, hbeq] at h
        exact Or.inr ⟨eq_of_beq hbeq, h.symm, h5.1, h5.2.2.1, h5.2.2.2⟩
  · exact Or.inl h
  · exact Or.inl h

theorem parseVatspyData_record_inv (text k : String) (r : VatspyAirport)
    (h : (parseVatspyData text).lookup k = some r) :
    r.isPseudo = false ∧ r.icao ≠ "" ∧ r.name ≠ "" ∧ r.icao = k := by
  unfold parseVatspyData at h
  suffices hgen : ∀ (lines : List String) (st : ParseState),
      (∀ k' r', st.airports.lookup k' = some r' →
        r'.isPseudo = false ∧ r'.icao ≠ "" ∧ r'.name ≠ "" ∧ r'.icao = k') →
      ∀ k' r', (lines.foldl processLine st).airports.lookup k' = some r' →
        r'.isPseudo = false ∧ r'.icao ≠ "" ∧ r'.name ≠ "" ∧ r'.icao = k' by
    refine hgen _ ⟨false, []⟩ ?_ k r h
    intro k' r' hk'
    simp [List.lookup] at hk'
  intro lines
  induction lines with
  | nil => intro st hst; exact hst
  | cons l ls ih =>
    intro st hst
    refine ih (processLine st l) ?_
    intro k' r' hk'
    rcases processLine_lookup_some st l k' r' hk' with hold | ⟨hkeq, hreq, hps, hic, hnm⟩
    · exact hst k' r' hold
    · subst hreq
      exact ⟨rfl, hic, hnm, hkeq.symm⟩

/-! ## Claim C3: parser admission rules -/

/-- C3: an already-admitted record is never overwritten by a later line
(first-wins); a line that is pseudo, has empty ICAO or name, or whose ICAO
is already present never changes the airports map; a qualifying line in the
airports section is admitted with exactly its fields; every record in any
parsed snapshot is non-pseudo with non-empty ICAO and name, keyed by its
own ICAO; concretely, two same-ICAO lines with differing names store the
first name, and a pseudo line is not retrievable by lookup. -/
theorem claim_C3_parser_admission :
    (∀ (st : ParseState) (line k : String) (r : VatspyAirport),
      st.airports.lookup k = some r → (processLine st line).airports.lookup k = some r) ∧
    (∀ (st : ParseState) (line : String),
      linePseudoFlag line = "1" ∨ lineIcao line = "" ∨ lineName line = "" ∨
        st.airports.lookup (lineIcao line) ≠ none →
      (processLine st line).airports = st.airports) ∧
    (∀ (st : ParseState) (line : String),
      st.inAirportsSection = true →
      ¬(jsTrim line = "" ∨ jsStartsWithChar (jsTrim line) ';' = true) →
      ¬(jsStartsWithChar (jsTrim line) '[' = true ∧ jsEndsWithChar (jsTrim line) ']' = true) →
      (lineParts line).length ≥ 7 →
      linePseudoFlag line ≠ "1" →
      st.airports.lookup (lineIcao line) = none →
      lineIcao line ≠ "" →
      lineName line ≠ "" →
      (processLine st line).airports = st.airports ++ [(lineIcao line, lineRecord line)]) ∧
    (∀ (text k : String) (r : VatspyAirport),
      (parseVatspyData text).lookup k = some r →
      r.isPseudo = false ∧ r.icao ≠ "" ∧ r.name ≠ "" ∧ r.icao = k) ∧
    ((parseVatspyData "[Airports]\nAAAA|First|1|2||FIRA|0\nAAAA|Second|3|4||FIRA|0").lookup
        "AAAA" =
      some ⟨"AAAA", "First", jsParseFloat "1", jsParseFloat "2", none, "FIRA", false⟩) ∧
    ((parseVatspyData "[Airports]\nBBBB|Pseudo Airport|1|2||FIRB|1").lookup "BBBB" = none) :=
  ⟨processLine_preserves, processLine_skips, processLine_admits,
   parseVatspyData_record_inv, rfl, rfl⟩

/-- Witness for C3: a previously admitted record survives processing a new
line, and a pseudo line leaves the map unchanged. -/
theorem claim_C3_parser_admission_witness :
    (processLine ⟨true, [("ZZZZ", ⟨"ZZZZ", "Zulu", none, none, none, "", false⟩)]⟩
      "AAAA|First|1|2||FIRA|0").airports.lookup "ZZZZ" =
        some ⟨"ZZZZ", "Zulu", none, none, none, "", false⟩ ∧
    (processLine ⟨true, []⟩ "CCCC|Gamma|1|2||FIRC|1").airports = [] :=
  ⟨claim_C3_parser_admission.1 _ _ _ _ rfl,
   claim_C3_parser_admission.2.1 _ _ (Or.inl (by decide))⟩

/-! ## Claim C9: lines with unparseable coordinates -/

/-- C9 counterexample: the airports-section line `AAAA|Alpha|xx|20.5|A|EGTT|0`
has a latitude field `"xx"` on which `parseFloat` yields `NaN` (modelled
`none`), yet the parser admits the record — it appears in the snapshot with
the `NaN` latitude stored — because the source never checks `isNaN`. The
claim says no record for such a line appears. -/
theorem claim_C9_counterexample :
    jsParseFloat "xx" = none ∧
    (parseVatspyData "[Airports]\nAAAA|Alpha|xx|20.5|A|EGTT|0").lookup "AAAA" =
      some ⟨"AAAA", "Alpha", jsParseFloat "xx", jsParseFloat "20.5", some "A", "EGTT", false⟩ :=
  ⟨rfl, rfl⟩

/-- C9 amended: the parser does not validate the numeric fields. An
airports-section line with at least 7 fields that passes the
pseudo/ICAO/name/duplicate conditions is admitted even when its latitude
or longitude fails to parse; the failed field is stored as `NaN`
(modelled `none`), and parsing continues (the line loop is total — no
fatal error). -/
theorem claim_C9_amended (st : ParseState) (line : String)
    (hsec : st.inAirportsSection = true)
    (hblank : ¬(jsTrim line = "" ∨ jsStartsWithChar (jsTrim line) ';' = true))
    (hheader : ¬(jsStartsWithChar (jsTrim line) '[' = true ∧
      jsEndsWithChar (jsTrim line) ']' = true))
    (hlen : (lineParts line).length ≥ 7)
    (hps : linePseudoFlag line ≠ "1")
    (hnew : st.airports.lookup (lineIcao line) = none)
    (hic : lineIcao line ≠ "")
    (hnm : lineName line ≠ "")
    (hlat : jsParseFloat ((lineParts line).getD 2 "") = none ∨
      jsParseFloat ((lineParts line).getD 3 "") = none) :
    (processLine st line).airports = st.airports ++ [(lineIcao line, lineRecord line)] ∧
      ((lineRecord line).latitude = none ∨ (lineRecord line).longitude = none) :=
  ⟨processLine_admits st line hsec hblank hheader hlen hps hnew hic hnm, hlat⟩

/-- Witness for C9 amended: the line `BBBB|Beta|zz|1||FIRB|0` with
unparseable latitude is admitted into an empty map with `NaN` stored. -/
theorem claim_C9_amended_witness :
    (processLine ⟨true, []⟩ "BBBB|Beta|zz|1||FIRB|0").airports =
      [("BBBB", lineRecord "BBBB|Beta|zz|1||FIRB|0")] ∧
    (lineRecord "BBBB|Beta|zz|1||FIRB|0").latitude = none := by
  have h := claim_C9_amended ⟨true, []⟩ "BBBB|Beta|zz|1||FIRB|0" rfl (by decide) (by decide)
    (by decide) (by decide) rfl (by decide) (by decide) (Or.inl rfl)
  exact ⟨by simpa using h.1, rfl⟩

/-! ## Claim C4: the cache is not single-flight -/

/-- C4 counterexample: two callers both execute the
`if (cachedAirports) return cachedAirports;` check while the cache is still
empty (schedule: check of caller 0, check of caller 1, body of caller 0,
body of caller 1). The parse body runs twice — refuting "the parse is
executed exactly once" — although both callers do complete with the parsed
snapshot. -/
theorem claim_C4_counterexample :
    (runSchedule "" ⟨none, 0, [CallerPhase.notStarted, CallerPhase.notStarted]⟩
        [0, 1, 0, 1]).parseCount = 2 ∧
    (runSchedule "" ⟨none, 0, [CallerPhase.notStarted, CallerPhase.notStarted]⟩
        [0, 1, 0, 1]).callers = [CallerPhase.done [], CallerPhase.done []] :=
  ⟨rfl, rfl⟩

/-- C4 amended: the module-level cache memoizes only a *completed* parse.
A caller that performs its cache check after some parse has completed
receives the cached snapshot and triggers no further parse; but every
caller that passed the check while the cache was empty executes the parse
body itself when next scheduled (each such step increments the parse
count), so N callers arriving before the first parse completes perform N
parses — the in-flight result is not shared. -/
theorem claim_C4_amended :
    (∀ (text : String) (s : StoreState) (i : ℕ) (snap : List (String × VatspyAirport)),
      s.cachedAirports = some snap → s.callers.get? i = some CallerPhase.notStarted →
      stepCaller text s i = { s with callers := s.callers.set i (CallerPhase.done snap) }) ∧
    (∀ (text : String) (s : StoreState) (i : ℕ),
      (stepCaller text s i).parseCount =
        s.parseCount + (if s.callers.get? i = some CallerPhase.checked then 1 else 0)) := by
  constructor
  · intro text s i snap hc hp
    unfold stepCaller
    rw [hp, hc]
  · intro text s i
    unfold stepCaller
    cases hp : s.callers.get? i with
    | none => simp
    | some ph =>
      cases ph with
      | notStarted => cases hcach : s.cachedAirports <;> simp
      | checked => simp
      | done res => simp

/-- Witness for C4 amended: with a populated cache a fresh caller is served
from the cache (no parse-count change), while a caller past the empty-cache
check increments the parse count. -/
theorem claim_C4_amended_witness :
    stepCaller "" ⟨some [], 3, [CallerPhase.notStarted]⟩ 0 =
      ⟨some [], 3, [CallerPhase.done []]⟩ ∧
    (stepCaller "" ⟨none, 0, [CallerPhase.checked]⟩ 0).parseCount = 1 := by
  constructor
  · have h := claim_C4_amended.1 "" ⟨some [], 3, [CallerPhase.notStarted]⟩ 0 [] rfl rfl
    exact h.trans rfl
  · have h2 := claim_C4_amended.2 "" ⟨none, 0, [CallerPhase.checked]⟩ 0
    simpa using h2

end VatsimFPN
